import Mathlib

/-!
Verification of the AASET shared-expense tracker (src/app.py).

The settlement engine of the app is `calculate_balance_and_summary`, the
per-record audit trail is the module-level transaction-by-transaction loop,
the balance-card classification is the `balance > 0.01 / balance < -0.01`
trichotomy, and the snapshot comparison used by the edit path is
`df_equivalent`.  Amounts are modelled as rationals (the Python code uses
floats; the arithmetic is plain sums and halving), and the `Type` and
`Paid by` columns as strings, exactly as the code compares them.
-/

namespace AASET

/-- One row of the transaction DataFrame, restricted to the columns the
settlement engine and the audit trail read: `Transaction`, `Amount`,
`Type`, `Paid by`, and `Location` (the last is carried so that we can state
that it never affects settlement). -/
structure TransactionRecord where
  transaction : String
  amount : ℚ
  type : String
  paidBy : String
  location : String
deriving DecidableEq, Repr

/-- The summary dictionary built by `calculate_balance_and_summary`,
with the nine keys of the Python dict as fields. -/
structure Summary where
  total_paid_by_AK : ℚ
  total_paid_by_AA : ℚ
  shared_expenses : ℚ
  shared_paid_by_ak : ℚ
  shared_paid_by_aa : ℚ
  ak_only_paid_by_aa : ℚ
  aa_only_paid_by_ak : ℚ
  repayment_ak_to_aa : ℚ
  repayment_aa_to_ak : ℚ
deriving DecidableEq, Repr

/-- The all-zero summary returned for an empty DataFrame. -/
def zeroSummary : Summary := ⟨0, 0, 0, 0, 0, 0, 0, 0, 0⟩

/-- `df[mask]["Amount"].sum()`: the sum of the `Amount` column of a
filtered row list. -/
def sumAmount (l : List TransactionRecord) : ℚ :=
  (l.map TransactionRecord.amount).sum

/-- The non-empty branch of `calculate_balance_and_summary` (src/app.py
lines 219-237): the nine filtered sums, the `ak_share` guard, and the
sequential balance updates. -/
def summarizeAux (df : List TransactionRecord) : ℚ × Summary :=
  let summary : Summary :=
    { total_paid_by_AK := sumAmount (df.filter (fun r => r.paidBy == "AK"))
      total_paid_by_AA := sumAmount (df.filter (fun r => r.paidBy == "AA"))
      shared_expenses := sumAmount (df.filter (fun r => r.type == "Shared Expense"))
      shared_paid_by_ak :=
        sumAmount (df.filter (fun r => r.type == "Shared Expense" && r.paidBy == "AK"))
      shared_paid_by_aa :=
        sumAmount (df.filter (fun r => r.type == "Shared Expense" && r.paidBy == "AA"))
      ak_only_paid_by_aa :=
        sumAmount (df.filter (fun r => r.type == "For AK only" && r.paidBy == "AA"))
      aa_only_paid_by_ak :=
        sumAmount (df.filter (fun r => r.type == "For AA only" && r.paidBy == "AK"))
      repayment_ak_to_aa :=
        sumAmount (df.filter (fun r => r.type == "Repayment from AK to AA"))
      repayment_aa_to_ak :=
        sumAmount (df.filter (fun r => r.type == "Repayment from AA to AK")) }
  let ak_share : ℚ :=
    if summary.shared_expenses > 0 then summary.shared_expenses / 2 else 0
  let balance : ℚ :=
    summary.shared_paid_by_ak - ak_share
      + summary.aa_only_paid_by_ak - summary.ak_only_paid_by_aa
      + summary.repayment_ak_to_aa - summary.repayment_aa_to_ak
  (balance, summary)

/-- `calculate_balance_and_summary` (src/app.py lines 210-237): an empty
DataFrame yields balance `0.0` and the all-zero summary dict, otherwise the
nine aggregates and the balance formula of `summarizeAux`. -/
def calculate_balance_and_summary (df : List TransactionRecord) : ℚ × Summary :=
  if df.isEmpty then (0, zeroSummary) else summarizeAux df

/-- The `balance_change` computed for one row by the
transaction-by-transaction log loop (src/app.py lines 373-396): the if/elif
chain over `Type` and `Paid by`, with `balance_change = 0.0` when no branch
matches. -/
def balance_change (row : TransactionRecord) : ℚ :=
  if row.type == "Shared Expense" then
    let share := row.amount / 2
    if row.paidBy == "AK" then share else -share
  else if row.type == "For AA only" && row.paidBy == "AK" then row.amount
  else if row.type == "For AK only" && row.paidBy == "AA" then -row.amount
  else if row.type == "Repayment from AA to AK" then -row.amount
  else if row.type == "Repayment from AK to AA" then row.amount
  else 0

/-- The body of the log loop: starting from an accumulator
`running_balance`, emit for every row the row itself, its delta, and the
new running balance (src/app.py lines 370-401). -/
def traceFrom (running_balance : ℚ) :
    List TransactionRecord → List (TransactionRecord × ℚ × ℚ)
  | [] => []
  | row :: rest =>
      let delta := balance_change row
      (row, delta, running_balance + delta) :: traceFrom (running_balance + delta) rest

/-- The full transaction-by-transaction trace: the loop run with
`running_balance = 0.0`. -/
def trace (records : List TransactionRecord) : List (TransactionRecord × ℚ × ℚ) :=
  traceFrom 0 records

/-- The balance-card classification (src/app.py lines 297-302): the
`card_class` and `title` chosen from the computed balance. -/
def balanceCard (balance : ℚ) : String × String :=
  if balance > 0.01 then ("positive", "Final Balance: AA owes AK")
  else if balance < -0.01 then ("negative", "Final Balance: AK owes AA")
  else ("neutral", "You are all settled up!")

/-- A DataFrame as `df_equivalent` sees it: named columns and rows of
cells, a cell being a value or missing (`NaN`). -/
structure DFrame where
  columns : List String
  rows : List (List (Option String))
deriving DecidableEq, Repr

/-- The value of the cell of `row` under column label `c`, after
`fillna("")`: the entry at the column's index, with missing cells read as
the empty string. -/
def cellValue (cols : List String) (row : List (Option String)) (c : String) : String :=
  match cols.findIdx? (fun d => d == c) with
  | some i => (row.getD i none).getD ""
  | none => ""

/-- `df_equivalent` (src/app.py lines 239-254): `True` when both inputs are
`None`; `False` when exactly one is; otherwise fill missing cells with
`""`, restrict both frames to the columns of `a` also present in `b`,
compare shapes, and compare the restricted cell grids. -/
def df_equivalent (a b : Option DFrame) : Bool :=
  match a, b with
  | none, none => true
  | none, some _ => false
  | some _, none => false
  | some a, some b =>
      let common := a.columns.filter (fun c => b.columns.contains c)
      let a2 := a.rows.map (fun row => common.map (cellValue a.columns row))
      let b2 := b.rows.map (fun row => common.map (cellValue b.columns row))
      if a.rows.length == b.rows.length then a2 == b2 else false

/-! ### Spec-side definitions

These follow the wording of the specification (PartyOne = AK,
PartyTwo = AA) and are compared against the code-side definitions above in
the refinement theorems. -/

/-- Spec wording: sum of amount where paid_by = PartyOne. -/
def specTotalByPartyOne (l : List TransactionRecord) : ℚ :=
  (l.map (fun r => if r.paidBy = "AK" then r.amount else 0)).sum

/-- Spec wording: sum of amount where paid_by = PartyTwo. -/
def specTotalByPartyTwo (l : List TransactionRecord) : ℚ :=
  (l.map (fun r => if r.paidBy = "AA" then r.amount else 0)).sum

/-- Spec wording: sum of amount where category = SharedExpense. -/
def specSharedTotal (l : List TransactionRecord) : ℚ :=
  (l.map (fun r => if r.type = "Shared Expense" then r.amount else 0)).sum

/-- Spec wording: sum of amount where category = SharedExpense and
paid_by = PartyOne. -/
def specSharedByOne (l : List TransactionRecord) : ℚ :=
  (l.map (fun r => if r.type = "Shared Expense" ∧ r.paidBy = "AK" then r.amount else 0)).sum

/-- Spec wording: sum of amount where category = SharedExpense and
paid_by = PartyTwo. -/
def specSharedByTwo (l : List TransactionRecord) : ℚ :=
  (l.map (fun r => if r.type = "Shared Expense" ∧ r.paidBy = "AA" then r.amount else 0)).sum

/-- Spec wording: sum where category = ForPartyOneOnly and
paid_by = PartyTwo. -/
def specOneOnlyPaidByTwo (l : List TransactionRecord) : ℚ :=
  (l.map (fun r => if r.type = "For AK only" ∧ r.paidBy = "AA" then r.amount else 0)).sum

/-- Spec wording: sum where category = ForPartyTwoOnly and
paid_by = PartyOne. -/
def specTwoOnlyPaidByOne (l : List TransactionRecord) : ℚ :=
  (l.map (fun r => if r.type = "For AA only" ∧ r.paidBy = "AK" then r.amount else 0)).sum

/-- Spec wording: sum where category = RepaymentOneToTwo. -/
def specRepayOneToTwo (l : List TransactionRecord) : ℚ :=
  (l.map (fun r => if r.type = "Repayment from AK to AA" then r.amount else 0)).sum

/-- Spec wording: sum where category = RepaymentTwoToOne. -/
def specRepayTwoToOne (l : List TransactionRecord) : ℚ :=
  (l.map (fun r => if r.type = "Repayment from AA to AK" then r.amount else 0)).sum

/-- Spec wording: each_share = shared_total / 2 if shared_total > 0
else 0. -/
def specEachShare (l : List TransactionRecord) : ℚ :=
  if specSharedTotal l > 0 then specSharedTotal l / 2 else 0

/-- Spec wording: net_balance = (shared_by_one - each_share)
+ two_only_paid_by_one - one_only_paid_by_two + repay_one_to_two
- repay_two_to_one. -/
def specNetBalance (l : List TransactionRecord) : ℚ :=
  (specSharedByOne l - specEachShare l)
    + specTwoOnlyPaidByOne l - specOneOnlyPaidByTwo l
    + specRepayOneToTwo l - specRepayTwoToOne l

/-- The disjunction of the five per-record trace rules as the spec lists
them (SharedExpense paid by PartyOne or PartyTwo, ForPartyTwoOnly paid by
PartyOne, ForPartyOneOnly paid by PartyTwo, either repayment). -/
def matchesTraceRule (r : TransactionRecord) : Bool :=
  (r.type == "Shared Expense" && r.paidBy == "AK") ||
  (r.type == "Shared Expense" && r.paidBy == "AA") ||
  (r.type == "For AA only" && r.paidBy == "AK") ||
  (r.type == "For AK only" && r.paidBy == "AA") ||
  (r.type == "Repayment from AK to AA") ||
  (r.type == "Repayment from AA to AK")

/-- Erase the advisory `Location` field, keeping every field the
settlement engine reads. -/
def stripLocation (r : TransactionRecord) : TransactionRecord :=
  { r with location := "" }

/-! ### Helper lemmas -/

/-- The empty-DataFrame guard is redundant: `summarizeAux` already returns
the zero result on the empty list, so the two branches agree everywhere. -/
theorem calc_eq_summarizeAux (l : List TransactionRecord) :
    calculate_balance_and_summary l = summarizeAux l := by
  cases l with
  | nil =>
      simp [calculate_balance_and_summary, summarizeAux, zeroSummary, sumAmount]
  | cons r t => rfl

/-- A filtered `Amount` sum is the sum of a guarded per-record
contribution. -/
theorem sumAmount_filter (p : TransactionRecord → Bool) (l : List TransactionRecord) :
    sumAmount (l.filter p) = (l.map (fun r => if p r then r.amount else 0)).sum := by
  induction l with
  | nil => rfl
  | cons r t ih =>
      by_cases h : p r <;>
        simp [sumAmount, List.filter_cons, h, ← ih]

/-- The per-record delta of the log loop, written as the difference of the
guarded contributions that feed the aggregate formula. -/
theorem balance_change_eq (r : TransactionRecord) :
    balance_change r =
      (if r.type = "Shared Expense" ∧ r.paidBy = "AK" then r.amount else 0)
        - (if r.type = "Shared Expense" then r.amount else 0) / 2
        + (if r.type = "For AA only" ∧ r.paidBy = "AK" then r.amount else 0)
        - (if r.type = "For AK only" ∧ r.paidBy = "AA" then r.amount else 0)
        + (if r.type = "Repayment from AK to AA" then r.amount else 0)
        - (if r.type = "Repayment from AA to AK" then r.amount else 0) := by
  unfold balance_change
  by_cases h1 : r.type = "Shared Expense"
  · by_cases h2 : r.paidBy = "AK"
    · simp [h1, h2]
      ring
    · simp [h1, h2]
  · by_cases h3 : r.type = "For AA only" <;>
      by_cases h4 : r.type = "For AK only" <;>
        by_cases h5 : r.type = "Repayment from AA to AK" <;>
          by_cases h6 : r.type = "Repayment from AK to AA" <;>
            by_cases h7 : r.paidBy = "AK" <;>
              by_cases h8 : r.paidBy = "AA" <;>
                simp_all

/-- The sum of the per-record deltas of the log loop, in terms of the six
aggregates that enter the balance formula. -/
theorem traceDelta_sum (l : List TransactionRecord) :
    (l.map balance_change).sum =
      specSharedByOne l - specSharedTotal l / 2
        + specTwoOnlyPaidByOne l - specOneOnlyPaidByTwo l
        + specRepayOneToTwo l - specRepayTwoToOne l := by
  induction l with
  | nil =>
      simp [specSharedByOne, specSharedTotal, specTwoOnlyPaidByOne,
        specOneOnlyPaidByTwo, specRepayOneToTwo, specRepayTwoToOne]
  | cons r t ih =>
      simp only [specSharedByOne, specSharedTotal, specTwoOnlyPaidByOne,
        specOneOnlyPaidByTwo, specRepayOneToTwo, specRepayTwoToOne,
        List.map_cons, List.sum_cons] at ih ⊢
      rw [ih, balance_change_eq r]
      ring

/-- With only non-negative amounts the shared total is non-negative. -/
theorem specSharedTotal_nonneg (l : List TransactionRecord)
    (h : ∀ r ∈ l, 0 ≤ r.amount) : 0 ≤ specSharedTotal l := by
  unfold specSharedTotal
  apply List.sum_nonneg
  intro x hx
  obtain ⟨r, hr, rfl⟩ := List.mem_map.mp hx
  split
  · exact h r hr
  · exact le_rfl

/-- With a non-negative shared total the guarded half is the plain
half. -/
theorem specEachShare_eq_half (l : List TransactionRecord)
    (h : 0 ≤ specSharedTotal l) : specEachShare l = specSharedTotal l / 2 := by
  unfold specEachShare
  split_ifs with hp
  · rfl
  · have h0 : specSharedTotal l = 0 := le_antisymm (not_lt.mp hp) h
    rw [h0]
    norm_num

/-- The summary built by `summarizeAux` is exactly the nine spec-side
aggregates. -/
theorem summarizeAux_snd (l : List TransactionRecord) :
    (summarizeAux l).2 =
      ⟨specTotalByPartyOne l, specTotalByPartyTwo l, specSharedTotal l,
        specSharedByOne l, specSharedByTwo l, specOneOnlyPaidByTwo l,
        specTwoOnlyPaidByOne l, specRepayOneToTwo l, specRepayTwoToOne l⟩ := by
  simp only [summarizeAux, sumAmount_filter, Bool.and_eq_true, beq_iff_eq,
    specTotalByPartyOne, specTotalByPartyTwo, specSharedTotal, specSharedByOne,
    specSharedByTwo, specOneOnlyPaidByTwo, specTwoOnlyPaidByOne,
    specRepayOneToTwo, specRepayTwoToOne]

/-- The balance of `summarizeAux`, written over the fields of its own
summary. -/
theorem summarizeAux_fst_eq (l : List TransactionRecord) :
    (summarizeAux l).1 =
      (summarizeAux l).2.shared_paid_by_ak -
          (if (summarizeAux l).2.shared_expenses > 0
            then (summarizeAux l).2.shared_expenses / 2 else 0)
        + (summarizeAux l).2.aa_only_paid_by_ak
        - (summarizeAux l).2.ak_only_paid_by_aa
        + (summarizeAux l).2.repayment_ak_to_aa
        - (summarizeAux l).2.repayment_aa_to_ak := rfl

/-- The balance of `summarizeAux` is the spec-side net balance. -/
theorem summarizeAux_fst (l : List TransactionRecord) :
    (summarizeAux l).1 = specNetBalance l := by
  rw [summarizeAux_fst_eq, summarizeAux_snd]
  simp [specNetBalance, specEachShare]

/-- With non-negative amounts the engine's balance is the sum of the log
loop's per-record deltas. -/
theorem netBalance_eq_traceDelta_sum (l : List TransactionRecord)
    (h : ∀ r ∈ l, 0 ≤ r.amount) :
    (calculate_balance_and_summary l).1 = (l.map balance_change).sum := by
  rw [calc_eq_summarizeAux, summarizeAux_fst, traceDelta_sum, specNetBalance,
    specEachShare_eq_half l (specSharedTotal_nonneg l h)]

/-- The log loop emits the input rows themselves, in order. -/
theorem traceFrom_map_fst (rb : ℚ) (l : List TransactionRecord) :
    (traceFrom rb l).map Prod.fst = l := by
  induction l generalizing rb with
  | nil => rfl
  | cons r t ih => simp [traceFrom, ih]

/-- The running balance carried by the last entry of the log loop is the
starting balance plus the sum of all deltas. -/
theorem traceFrom_getLast_rb (l : List TransactionRecord) :
    ∀ rb : ℚ, l ≠ [] →
      (traceFrom rb l).getLast?.map (fun e => e.2.2) =
        some (rb + (l.map balance_change).sum) := by
  induction l with
  | nil => intro rb hne; exact absurd rfl hne
  | cons r t ih =>
      intro rb _
      cases t with
      | nil => simp [traceFrom]
      | cons x xs =>
          have step : traceFrom rb (r :: x :: xs) =
              (r, balance_change r, rb + balance_change r) ::
                traceFrom (rb + balance_change r) (x :: xs) := rfl
          have step2 : traceFrom (rb + balance_change r) (x :: xs) =
              (x, balance_change x,
                  rb + balance_change r + balance_change x) ::
                traceFrom (rb + balance_change r + balance_change x) xs := rfl
          rw [step, step2, List.getLast?_cons_cons, ← step2,
            ih (rb + balance_change r) (by simp)]
          simp [add_assoc]

/-! ### Claim theorems -/

/-- Claim C1: for every sequence of records, `calculate_balance_and_summary`
returns the nine aggregates as the filtered sums of `Amount` over the listed
category/payer combinations (PartyOne = AK, PartyTwo = AA), and its balance
is `(shared_by_one - each_share) + two_only_paid_by_one -
one_only_paid_by_two + repay_one_to_two - repay_two_to_one`, where
`each_share = shared_total / 2` when `shared_total > 0` and `0`
otherwise. -/
theorem c1_summarize_formula (records : List TransactionRecord) :
    (calculate_balance_and_summary records).2 =
      ⟨specTotalByPartyOne records, specTotalByPartyTwo records,
        specSharedTotal records, specSharedByOne records,
        specSharedByTwo records, specOneOnlyPaidByTwo records,
        specTwoOnlyPaidByOne records, specRepayOneToTwo records,
        specRepayTwoToOne records⟩ ∧
    (calculate_balance_and_summary records).1 = specNetBalance records := by
  rw [calc_eq_summarizeAux]
  exact ⟨summarizeAux_snd records, summarizeAux_fst records⟩

/-- Claim C2: for every non-empty sequence of records with (data-model
valid, i.e. non-negative) amounts, the final running balance of the
transaction-by-transaction trace equals the `net_balance` returned by
`calculate_balance_and_summary`, under the repayment convention the code
fixes (AK-to-AA adds `+amount`, AA-to-AK adds `-amount`, in both). -/
theorem c2_trace_final_balance (records : List TransactionRecord)
    (h1 : records ≠ [])
    (h2 : ∀ r ∈ records, 0 ≤ r.amount) :
    (trace records).getLast?.map (fun e => e.2.2) =
      some ((calculate_balance_and_summary records).1) := by
  rw [trace, traceFrom_getLast_rb records 0 h1,
    netBalance_eq_traceDelta_sum records h2, zero_add]

/-- Witness for C2 at a concrete two-record ledger. -/
theorem c2_trace_final_balance_witness :
    (trace [⟨"a", 100, "Shared Expense", "AK", "x"⟩,
            ⟨"b", 60, "Shared Expense", "AA", "y"⟩]).getLast?.map
        (fun e => e.2.2) =
      some ((calculate_balance_and_summary
        [⟨"a", 100, "Shared Expense", "AK", "x"⟩,
         ⟨"b", 60, "Shared Expense", "AA", "y"⟩]).1) :=
  c2_trace_final_balance _ (by simp)
    (by intro r hr; fin_cases hr <;> norm_num)

/-- Claim C3 as stated is false: a `Shared Expense` row whose payer is
neither AK nor AA matches none of the five listed trace rules, yet the log
loop's `else` branch books it as paid by AA, so its delta is `-amount/2`,
not `0`: with amount 10 the trace entry carries delta `-5`. -/
theorem c3_counterexample :
    matchesTraceRule ⟨"m", 10, "Shared Expense", "N/A", ""⟩ = false ∧
    balance_change ⟨"m", 10, "Shared Expense", "N/A", ""⟩ ≠ 0 ∧
    (trace [⟨"m", 10, "Shared Expense", "N/A", ""⟩]).map (fun e => e.2.1) =
      [-5] := by
  refine ⟨by decide, ?_, ?_⟩
  · simp [balance_change]
  · simp [trace, traceFrom, balance_change]
    norm_num

/-- Claim C3 (amended): a record whose category/payer combination matches
none of the five trace rules and whose category is not `Shared Expense` is
assigned a delta of exactly 0, and every record, matching or not, still
appears as an entry of the trace in input order.  (A `Shared Expense`
record with an unrecognized payer is instead booked as paid by AA with
delta `-amount/2`.) -/
theorem c3_unmatched_delta_zero (r : TransactionRecord)
    (h1 : matchesTraceRule r = false)
    (h2 : r.type ≠ "Shared Expense")
    (l1 l2 : List TransactionRecord) :
    balance_change r = 0 ∧
    (trace (l1 ++ r :: l2)).map Prod.fst = l1 ++ r :: l2 := by
  refine ⟨?_, traceFrom_map_fst 0 _⟩
  have hForAA : ¬(r.type = "For AA only" ∧ r.paidBy = "AK") := by
    rintro ⟨ht, hp⟩
    simp [matchesTraceRule, ht, hp] at h1
  have hForAK : ¬(r.type = "For AK only" ∧ r.paidBy = "AA") := by
    rintro ⟨ht, hp⟩
    simp [matchesTraceRule, ht, hp] at h1
  have hRep1 : ¬(r.type = "Repayment from AK to AA") := by
    intro ht
    simp [matchesTraceRule, ht] at h1
  have hRep2 : ¬(r.type = "Repayment from AA to AK") := by
    intro ht
    simp [matchesTraceRule, ht] at h1
  rw [balance_change_eq r]
  simp [h2, hForAA, hForAK, hRep1, hRep2]

/-- Witness for the amended C3 at a concrete unmatched record. -/
theorem c3_unmatched_delta_zero_witness :
    balance_change ⟨"gift", 7, "For AA only", "AA", ""⟩ = 0 ∧
    (trace ([] ++ ⟨"gift", 7, "For AA only", "AA", ""⟩ :: [])).map Prod.fst =
      [] ++ ⟨"gift", 7, "For AA only", "AA", ""⟩ :: [] :=
  c3_unmatched_delta_zero _ (by decide) (by decide) [] []

/-- Claim C4: on the empty record list `calculate_balance_and_summary`
returns balance `0.0` and the summary whose nine aggregates are all
zero. -/
theorem c4_empty_summarize :
    calculate_balance_and_summary [] = (0, ⟨0, 0, 0, 0, 0, 0, 0, 0, 0⟩) := rfl

/-- Claim C5: `calculate_balance_and_summary` is invariant under any
permutation of its input: the balance and all nine aggregates agree. -/
theorem c5_perm_invariant (l1 l2 : List TransactionRecord)
    (h : l1.Perm l2) :
    calculate_balance_and_summary l1 = calculate_balance_and_summary l2 := by
  rw [calc_eq_summarizeAux, calc_eq_summarizeAux]
  have key : ∀ p : TransactionRecord → Bool,
      sumAmount (l1.filter p) = sumAmount (l2.filter p) := by
    intro p
    unfold sumAmount
    exact ((h.filter p).map TransactionRecord.amount).sum_eq
  simp only [summarizeAux, key]

/-- Witness for C5 at a concrete swap of two records. -/
theorem c5_perm_invariant_witness :
    calculate_balance_and_summary
        [⟨"a", 100, "Shared Expense", "AK", "x"⟩,
         ⟨"b", 60, "Shared Expense", "AA", "y"⟩] =
      calculate_balance_and_summary
        [⟨"b", 60, "Shared Expense", "AA", "y"⟩,
         ⟨"a", 100, "Shared Expense", "AK", "x"⟩] :=
  c5_perm_invariant _ _ (List.Perm.swap _ _ _)

/-- Claim C6 as stated is false: a record with a negative amount does not
contribute zero — it is summed into the matching aggregates like any other
record.  A single `Shared Expense` by AK of amount `-10` yields balance
`-10` and `shared_expenses = -10`, while removing it yields the all-zero
result. -/
theorem c6_counterexample :
    (⟨"bad", -10, "Shared Expense", "AK", ""⟩ : TransactionRecord).amount ≤ 0 ∧
    calculate_balance_and_summary [⟨"bad", -10, "Shared Expense", "AK", ""⟩] ≠
      calculate_balance_and_summary [] := by
  constructor
  · norm_num
  · simp [calculate_balance_and_summary, summarizeAux, sumAmount, zeroSummary]

/-- Claim C6 (amended): the engine never fails on a zero-or-negative
amount; a record with amount exactly 0 contributes zero to every aggregate
and to the balance (the result equals the result on the sequence with that
record removed), while a negative amount is summed into the matching
aggregates with its (negative) value. -/
theorem c6_zero_amount_removable (l1 l2 : List TransactionRecord)
    (r : TransactionRecord) (h : r.amount = 0) :
    calculate_balance_and_summary (l1 ++ r :: l2) =
      calculate_balance_and_summary (l1 ++ l2) := by
  rw [calc_eq_summarizeAux, calc_eq_summarizeAux]
  have key : ∀ p : TransactionRecord → Bool,
      sumAmount ((l1 ++ r :: l2).filter p) = sumAmount ((l1 ++ l2).filter p) := by
    intro p
    rw [sumAmount_filter, sumAmount_filter]
    simp [h]
  simp only [summarizeAux, key]

/-- Witness for the amended C6 at a concrete zero-amount record. -/
theorem c6_zero_amount_removable_witness :
    calculate_balance_and_summary
        ([] ++ ⟨"zero", 0, "Shared Expense", "AK", ""⟩ :: []) =
      calculate_balance_and_summary ([] ++ []) :=
  c6_zero_amount_removable [] [] _ rfl

/-- Claim C7: one `For AA only` record of amount `B` paid by AK plus one
`Repayment from AA to AK` record of amount `B` settle to balance 0,
whatever the descriptions, locations, and the repayment's payer. -/
theorem c7_repayment_cancels_debt (B : ℚ) (d1 d2 loc1 loc2 payer : String) :
    (calculate_balance_and_summary
      [⟨d1, B, "For AA only", "AK", loc1⟩,
       ⟨d2, B, "Repayment from AA to AK", payer, loc2⟩]).1 = 0 := by
  rw [calc_eq_summarizeAux]
  simp [summarizeAux, sumAmount]

/-- Claim C8: the balance card is a trichotomy with epsilon 0.01: the
title reports that AA owes AK exactly when `balance > 0.01`, that AK owes
AA exactly when `balance < -0.01`, and settled otherwise. -/
theorem c8_classification_trichotomy (b : ℚ) :
    ((balanceCard b).2 = "Final Balance: AA owes AK" ↔ 0.01 < b) ∧
    ((balanceCard b).2 = "Final Balance: AK owes AA" ↔ b < -0.01) ∧
    ((balanceCard b).2 = "You are all settled up!" ↔
      -0.01 ≤ b ∧ b ≤ 0.01) := by
  unfold balanceCard
  split_ifs with hp hn
  · refine ⟨?_, ?_, ?_⟩ <;> simp
    · exact hp
    · linarith
    · intro h; linarith
  · refine ⟨?_, ?_, ?_⟩ <;> simp
    · linarith
    · exact hn
    · intro h; linarith
  · refine ⟨?_, ?_, ?_⟩ <;> simp
    · linarith
    · linarith
    · constructor <;> linarith

/-- Claim C9: the `Location` column never affects settlement: two record
lists that agree after erasing `Location` get the same balance and the
same nine aggregates. -/
theorem c9_location_never_affects_settlement
    (l1 l2 : List TransactionRecord)
    (h : l1.map stripLocation = l2.map stripLocation) :
    calculate_balance_and_summary l1 = calculate_balance_and_summary l2 := by
  rw [calc_eq_summarizeAux, calc_eq_summarizeAux]
  have key : ∀ f : TransactionRecord → ℚ, (∀ r, f (stripLocation r) = f r) →
      (l1.map f).sum = (l2.map f).sum := by
    intro f hf
    have hfe : f ∘ stripLocation = f := funext hf
    calc (l1.map f).sum
        = ((l1.map stripLocation).map f).sum := by rw [List.map_map, hfe]
      _ = ((l2.map stripLocation).map f).sum := by rw [h]
      _ = (l2.map f).sum := by rw [List.map_map, hfe]
  simp only [summarizeAux, sumAmount_filter]
  rw [key (fun r => if r.paidBy == "AK" then r.amount else 0) (fun r => rfl),
    key (fun r => if r.paidBy == "AA" then r.amount else 0) (fun r => rfl),
    key (fun r => if r.type == "Shared Expense" then r.amount else 0)
      (fun r => rfl),
    key (fun r => if r.type == "Shared Expense" && r.paidBy == "AK"
      then r.amount else 0) (fun r => rfl),
    key (fun r => if r.type == "Shared Expense" && r.paidBy == "AA"
      then r.amount else 0) (fun r => rfl),
    key (fun r => if r.type == "For AK only" && r.paidBy == "AA"
      then r.amount else 0) (fun r => rfl),
    key (fun r => if r.type == "For AA only" && r.paidBy == "AK"
      then r.amount else 0) (fun r => rfl),
    key (fun r => if r.type == "Repayment from AK to AA" then r.amount else 0)
      (fun r => rfl),
    key (fun r => if r.type == "Repayment from AA to AK" then r.amount else 0)
      (fun r => rfl)]

/-- Witness for C9 at two records differing only in `Location`. -/
theorem c9_location_never_affects_settlement_witness :
    calculate_balance_and_summary
        [⟨"a", 5, "Shared Expense", "AK", "Melbourne, AU"⟩] =
      calculate_balance_and_summary
        [⟨"a", 5, "Shared Expense", "AK", "Location N/A"⟩] :=
  c9_location_never_affects_settlement _ _ rfl

/-- Claim C10: `df_equivalent` is reflexive — every record collection
(including the `None` case) compares equal to itself, so an unchanged
editor grid is never written back. -/
theorem c10_df_equivalent_refl (a : Option DFrame) :
    df_equivalent a a = true := by
  cases a with
  | none => rfl
  | some f => simp [df_equivalent]

end AASET
